import Mathlib

/-!
Shallow embedding of the Zap backend relay server (src/server.js): an Express
application exposing three relay routes behind a per-IP rate limiter, two
multer upload configurations, and a static health endpoint.
-/

/-- JSON values, the payloads the relay handlers pass around. Numbers in this
program are only the small integer constants of the source. -/
inductive Json where
  | null : Json
  | bool : Bool → Json
  | num : Int → Json
  | str : String → Json
  | arr : List Json → Json
  | obj : List (String × Json) → Json
deriving Repr

/-- A buffered upload as multer memory storage delivers it to a handler:
field name, MIME type, original client file name, and the raw bytes
(each byte a Nat below 256). -/
structure UploadedFile where
  fieldname : String
  mimetype : String
  originalname : String
  buffer : List Nat
deriving DecidableEq, Repr

/-- Verdict of a multer fileFilter callback: cb(null, true) accepts,
cb(new Error(msg)) rejects with that message. -/
inductive FilterResult where
  | accept : FilterResult
  | reject : String → FilterResult
deriving DecidableEq, Repr

/-- The fileFilter of the imageUpload multer configuration (src/server.js
lines 40-47): accept when the field name is images and the MIME type starts
with image/, otherwise pass an Error to the callback. -/
def imageFileFilter (file : UploadedFile) : FilterResult :=
  if file.fieldname = "images" && file.mimetype.startsWith "image/" then
    .accept
  else
    .reject ("Invalid file type or field name for image. Received: "
      ++ file.fieldname ++ ", " ++ file.mimetype)

/-- The fileFilter of the audioUpload multer configuration (src/server.js
lines 56-69): accept when the field name is file and the MIME type is one of
the five enumerated audio types. -/
def audioFileFilter (file : UploadedFile) : FilterResult :=
  if file.fieldname = "file" &&
      (file.mimetype = "audio/mpeg" ||
       file.mimetype = "audio/mp4" ||
       file.mimetype = "audio/wav" ||
       file.mimetype = "audio/webm" ||
       file.mimetype = "audio/m4a") then
    .accept
  else
    .reject ("Invalid file type or field name for audio. Received: "
      ++ file.fieldname ++ ", " ++ file.mimetype)

/-- Size cap of the imageUpload configuration: limits.fileSize, 10 MB. -/
def imageFileSizeLimit : Nat := 10 * 1024 * 1024

/-- Size cap of the audioUpload configuration: limits.fileSize, 25 MB. -/
def audioFileSizeLimit : Nat := 25 * 1024 * 1024

/-- Errors a multer upload middleware can raise for a file. -/
inductive MulterError where
  | fileFilterError : String → MulterError
  | limitFileSize : MulterError
deriving DecidableEq, Repr

/-- Modelled from the spec: the multer library (not part of src/) applies the
configured fileFilter to each incoming file and enforces limits.fileSize,
rejecting a buffered upload whose byte size exceeds the cap
(LIMIT_FILE_SIZE). On success the file is admitted into memory storage. -/
def processUpload (filter : UploadedFile → FilterResult) (limit : Nat)
    (file : UploadedFile) : Except MulterError Unit :=
  match filter file with
  | .reject msg => .error (.fileFilterError msg)
  | .accept =>
      if limit < file.buffer.length then .error .limitFileSize
      else .ok ()

/-- Alphabet used by standard base64 encoding (Buffer.toString with the
base64 encoding in Node). -/
def base64Chars : List Char :=
  "ABCDEFGHIJKLMNOPQRSTUVWXYZabcdefghijklmnopqrstuvwxyz0123456789+/".toList

/-- Character for one 6-bit group. -/
def base64Digit (n : Nat) : Char := base64Chars.getD n 'A'

/-- Base64 encoding of a byte list, three bytes to four characters, with
trailing padding, as Buffer.toString produces. Assumes each input is
already reduced below 256. -/
def base64EncodeGroups : List Nat → String
  | [] => ""
  | [b1] =>
      String.mk [base64Digit (b1 / 4), base64Digit (b1 % 4 * 16), '=', '=']
  | [b1, b2] =>
      String.mk [base64Digit (b1 / 4), base64Digit (b1 % 4 * 16 + b2 / 16),
        base64Digit (b2 % 16 * 4), '=']
  | b1 :: b2 :: b3 :: rest =>
      String.mk [base64Digit (b1 / 4), base64Digit (b1 % 4 * 16 + b2 / 16),
        base64Digit (b2 % 16 * 4 + b3 / 64), base64Digit (b3 % 64)]
        ++ base64EncodeGroups rest

/-- Base64 encoding of a buffer, reducing every entry to a byte first. -/
def base64Encode (bs : List Nat) : String :=
  base64EncodeGroups (bs.map (· % 256))

example : base64Encode [77] = "TQ==" := by decide
example : base64Encode [77, 97] = "TWE=" := by decide
example : base64Encode [77, 97, 110] = "TWFu" := by decide

/-- Point budget of the RateLimiterMemory instance (src/server.js line 20). -/
def rateLimiterPoints : Nat := 100

/-- Window duration of the RateLimiterMemory instance in seconds
(src/server.js line 21): 15 minutes. -/
def rateLimiterDuration : Nat := 15 * 60

/-- In-memory rate limiter state: per key (client address) the consumed
point count together with the expiry instant of its current fixed window.
Keys with no live record map to none. -/
def RateState : Type := String → Option (Nat × Nat)

/-- State before any request was consumed. -/
def emptyRateState : RateState := fun _ => none

/-- Functional update of the per-key store. -/
def RateState.set (st : RateState) (key : String) (v : Nat × Nat) : RateState :=
  fun k => if k = key then some v else st k

/-- One consume(key) call of rate-limiter-flexible memory storage: a key
with no record, or an expired record, starts a fresh window with one
consumed point; a live record is incremented. The call resolves (true)
when the consumed count stays within the point budget and rejects (false)
otherwise; the counter is stored either way. -/
def RateState.consume (st : RateState) (key : String) (now : Nat) :
    RateState × Bool :=
  match st key with
  | none =>
      (st.set key (1, now + rateLimiterDuration), decide (1 ≤ rateLimiterPoints))
  | some (c, exp) =>
      if now < exp then
        (st.set key (c + 1, exp), decide (c + 1 ≤ rateLimiterPoints))
      else
        (st.set key (1, now + rateLimiterDuration), decide (1 ≤ rateLimiterPoints))

/-- Outcome of an Express middleware: pass control to the next handler, or
answer the request directly with a status and a text body. -/
inductive MiddlewareResult where
  | next : MiddlewareResult
  | respond : Nat → String → MiddlewareResult
deriving DecidableEq, Repr

/-- The rateLimiterMiddleware (src/server.js lines 24-32): consume one point
for req.ip; on success call next(), on rejection send 429 Too Many
Requests. -/
def rateLimiterMiddleware (st : RateState) (ip : String) (now : Nat) :
    RateState × MiddlewareResult :=
  let (st', ok) := st.consume ip now
  (st', if ok then .next else .respond 429 "Too Many Requests")

/-- Run the rate limiter middleware over a sequence of request instants
from one client, collecting each outcome. -/
def runMiddleware (st : RateState) (ip : String) :
    List Nat → RateState × List MiddlewareResult
  | [] => (st, [])
  | t :: ts =>
      let s1 := rateLimiterMiddleware st ip t
      let s2 := runMiddleware s1.1 ip ts
      (s2.1, s1.2 :: s2.2)

/-- A value appended to an outbound multipart form: a buffered file with a
file name, or a plain string field. -/
inductive FormValue where
  | fileVal : List Nat → String → FormValue
  | strVal : String → FormValue
deriving DecidableEq, Repr

/-- Body of an outbound request to the upstream API: raw JSON or a
multipart form. -/
inductive OutboundBody where
  | jsonBody : Json → OutboundBody
  | formBody : List (String × FormValue) → OutboundBody
deriving Repr

/-- An outbound HTTP request the relay assembles for axios.post. -/
structure OutboundRequest where
  url : String
  headers : List (String × String)
  body : OutboundBody
deriving Repr

/-- Failure of an upstream axios call: a network error with a message, or a
non-2xx HTTP response carrying a status and an arbitrary payload. -/
inductive UpstreamErr where
  | network : String → UpstreamErr
  | httpError : Nat → Json → UpstreamErr
deriving Repr

/-- The upstream API as the handlers see it: every outbound request either
resolves with a JSON body or rejects with an axios error. -/
def Upstream : Type := OutboundRequest → Except UpstreamErr Json

/-- A JavaScript exception reaching a catch block: the rejection of the
awaited axios call, or a TypeError thrown while evaluating the try body. -/
inductive JsError where
  | axiosErr : UpstreamErr → JsError
  | typeError : String → JsError
  | multerErr : MulterError → JsError
deriving Repr

/-- Body of a response sent to the client: plain text via send, or JSON via
res.json. -/
inductive Body where
  | text : String → Body
  | json : Json → Body
deriving Repr

/-- An HTTP response the server sends to the client. -/
structure HttpResponse where
  status : Nat
  body : Body
deriving Repr

/-- What becomes of a dispatched request: the handler (or a middleware)
responded itself, an error escaped to the Express default error handler,
or no route matched. -/
inductive HandlerOutcome where
  | responded : HttpResponse → HandlerOutcome
  | frameworkError : JsError → HandlerOutcome
  | noRoute : HandlerOutcome
deriving Repr

/-- The fixed generic error payload every relay catch block sends
(src/server.js lines 86, 124, 172). -/
def genericErrorJson : Json :=
  .obj [("error", .str "An error occurred while processing your request.")]

/-- Wrap a try body: a normal result is sent as is, and any caught error is
mapped to 500 with the generic JSON payload, the shared shape of all three
relay catch blocks. -/
def catchToGeneric (r : Except JsError HttpResponse) : HandlerOutcome :=
  match r with
  | .ok resp => .responded resp
  | .error _ => .responded ⟨500, .json genericErrorJson⟩

/-- Outbound request of the chat relay (src/server.js lines 76-81): the
inbound JSON body forwarded untouched to the upstream chat completions URL
with a bearer credential header. -/
def chatOutboundRequest (key : String) (body : Json) : OutboundRequest :=
  { url := "https://api.uniapi.me/v1/chat/completions"
    headers := [("Authorization", "Bearer " ++ key),
                ("Content-Type", "application/json")]
    body := .jsonBody body }

/-- Try body of the chat relay handler: await the upstream call and answer
with its JSON data. -/
def chatTryBlock (key : String) (body : Json) (upstream : Upstream) :
    Except JsError HttpResponse :=
  match upstream (chatOutboundRequest key body) with
  | .ok d => .ok ⟨200, .json d⟩
  | .error e => .error (.axiosErr e)

/-- The POST /api/openai/chat handler (src/server.js lines 73-88). -/
def chatHandler (key : String) (body : Json) (upstream : Upstream) :
    HandlerOutcome :=
  catchToGeneric (chatTryBlock key body upstream)

/-- Outbound request of the transcription relay (src/server.js lines
96-110): a multipart form holding the buffered audio file and the fixed
model field whisper-1. -/
def transcribeOutboundRequest (key : String) (f : UploadedFile) :
    OutboundRequest :=
  { url := "https://api.uniapi.me/v1/audio/transcriptions"
    headers := [("Authorization", "Bearer " ++ key),
                ("Content-Type", "multipart/form-data")]
    body := .formBody [("file", .fileVal f.buffer f.originalname),
                       ("model", .strVal "whisper-1")] }

/-- Try body of the transcription handler: reading req.file.buffer throws a
TypeError when no file was attached; otherwise the form is built and the
upstream call awaited. -/
def transcribeTryBlock (key : String) (file : Option UploadedFile)
    (upstream : Upstream) : Except JsError HttpResponse :=
  match file with
  | none => .error (.typeError "Cannot read properties of undefined")
  | some f =>
      match upstream (transcribeOutboundRequest key f) with
      | .ok d => .ok ⟨200, .json d⟩
      | .error e => .error (.axiosErr e)

/-- The POST /api/openai/transcribe handler (src/server.js lines 91-126). -/
def transcribeHandler (key : String) (file : Option UploadedFile)
    (upstream : Upstream) : HandlerOutcome :=
  catchToGeneric (transcribeTryBlock key file upstream)

/-- Default text used when req.body.text is absent or falsy
(src/server.js line 137). -/
def defaultNotesText : String :=
  "Please analyze the following images and provide a summary."

/-- The JavaScript expression x || d on an optional string field: an absent
field or the empty string is falsy and yields the default. -/
def jsOrDefault (t : Option String) (d : String) : String :=
  match t with
  | none => d
  | some s => if s = "" then d else s

/-- The text content part of the user message (src/server.js line 137). -/
def notesTextPart (t : Option String) : Json :=
  .obj [("type", .str "text"), ("text", .str (jsOrDefault t defaultNotesText))]

/-- One image content part (src/server.js lines 144-150): the buffered file
base64-encoded inline as a data URI. -/
def notesImagePart (f : UploadedFile) : Json :=
  .obj [("type", .str "image_url"),
        ("image_url", .obj [("url",
          .str ("data:" ++ f.mimetype ++ ";base64," ++ base64Encode f.buffer))])]

/-- Content array of the user message (src/server.js lines 136-152): the
text part first, then one image part pushed per uploaded file in order. -/
def notesUserContent (t : Option String) (files : List UploadedFile) :
    List Json :=
  files.foldl (fun acc f => acc ++ [notesImagePart f]) [notesTextPart t]

/-- The messages array of the note-analysis request (src/server.js lines
134-152): the fixed system prompt followed by the user message. -/
def notesMessages (t : Option String) (files : List UploadedFile) :
    List Json :=
  [.obj [("role", .str "system"),
         ("content", .str "You are a helpful assistant that analyzes notes including text and images.")],
   .obj [("role", .str "user"), ("content", .arr (notesUserContent t files))]]

/-- Outbound request of the note-analysis relay (src/server.js lines
154-166): fixed model gpt-4o-mini, the assembled messages, and a 300 token
cap, sent to the upstream chat completions URL. -/
def processNotesOutboundRequest (key : String) (t : Option String)
    (files : List UploadedFile) : OutboundRequest :=
  { url := "https://api.uniapi.me/v1/chat/completions"
    headers := [("Authorization", "Bearer " ++ key),
                ("Content-Type", "application/json")]
    body := .jsonBody (.obj [("model", .str "gpt-4o-mini"),
                             ("messages", .arr (notesMessages t files)),
                             ("max_tokens", .num 300)]) }

/-- Try body of the note-analysis handler. -/
def processNotesTryBlock (key : String) (t : Option String)
    (files : List UploadedFile) (upstream : Upstream) :
    Except JsError HttpResponse :=
  match upstream (processNotesOutboundRequest key t files) with
  | .ok d => .ok ⟨200, .json d⟩
  | .error e => .error (.axiosErr e)

/-- The POST /api/openai/process-notes handler (src/server.js lines
128-174). -/
def processNotesHandler (key : String) (t : Option String)
    (files : List UploadedFile) (upstream : Upstream) : HandlerOutcome :=
  catchToGeneric (processNotesTryBlock key t files upstream)

/-- An inbound client request as the middleware chain presents it: method,
path, client address, parsed JSON body, the optional text form field, the
buffered files of the images field, and the optional single file of the
file field. -/
structure Request where
  method : String
  path : String
  ip : String
  body : Json
  textField : Option String
  files : List UploadedFile
  file : Option UploadedFile

/-- Run the image upload middleware over every attached file: the first
multer error aborts the chain and surfaces on the Express default error
path. -/
def runImageUploads (files : List UploadedFile) : Except MulterError Unit :=
  match files with
  | [] => .ok ()
  | f :: fs =>
      match processUpload imageFileFilter imageFileSizeLimit f with
      | .error e => .error e
      | .ok _ => runImageUploads fs

/-- Route dispatch of the Express app (src/server.js lines 73-179): the
three POST relay routes sit behind the rate limiter middleware and their
upload middleware; GET /health is registered with no middleware. A multer
rejection becomes an error on the framework default error path. -/
def handleRequest (key : String) (upstream : Upstream) (st : RateState)
    (now : Nat) (req : Request) : RateState × HandlerOutcome :=
  if req.method = "POST" ∧ req.path = "/api/openai/chat" then
    let (st', r) := rateLimiterMiddleware st req.ip now
    match r with
    | .next => (st', chatHandler key req.body upstream)
    | .respond s b => (st', .responded ⟨s, .text b⟩)
  else if req.method = "POST" ∧ req.path = "/api/openai/transcribe" then
    let (st', r) := rateLimiterMiddleware st req.ip now
    match r with
    | .next =>
        match req.file with
        | none => (st', transcribeHandler key none upstream)
        | some f =>
            match processUpload audioFileFilter audioFileSizeLimit f with
            | .error e =>
                (st', .frameworkError (.multerErr e))
            | .ok _ => (st', transcribeHandler key (some f) upstream)
    | .respond s b => (st', .responded ⟨s, .text b⟩)
  else if req.method = "POST" ∧ req.path = "/api/openai/process-notes" then
    let (st', r) := rateLimiterMiddleware st req.ip now
    match r with
    | .next =>
        match runImageUploads req.files with
        | .error e => (st', .frameworkError (.multerErr e))
        | .ok _ => (st', processNotesHandler key req.textField req.files upstream)
    | .respond s b => (st', .responded ⟨s, .text b⟩)
  else if req.method = "GET" ∧ req.path = "/health" then
    (st, .responded ⟨200, .text "OK"⟩)
  else
    (st, .noRoute)


/-! Theorems -/

/-- C5. A file is accepted by the image upload filter if and only if its
field name is images and its MIME type starts with image/; any other field
name or MIME type is rejected to the upload middleware, before the relay
handler runs. -/
theorem imageFileFilter_accept_iff (f : UploadedFile) :
    imageFileFilter f = .accept ↔
      (f.fieldname = "images" ∧ f.mimetype.startsWith "image/" = true) := by
  unfold imageFileFilter
  split
  case isTrue h =>
    simp only [Bool.and_eq_true, decide_eq_true_eq] at h
    simpa using h
  case isFalse h =>
    simp only [Bool.and_eq_true, decide_eq_true_eq] at h
    simpa using h

/-- C6. A file is accepted by the audio upload filter if and only if its
field name is file and its MIME type is one of the five enumerated audio
MIME types; any other field name or MIME type is rejected to the upload
middleware, before the relay handler runs. -/
theorem audioFileFilter_accept_iff (f : UploadedFile) :
    audioFileFilter f = .accept ↔
      (f.fieldname = "file" ∧
        (f.mimetype = "audio/mpeg" ∨ f.mimetype = "audio/mp4" ∨
         f.mimetype = "audio/wav" ∨ f.mimetype = "audio/webm" ∨
         f.mimetype = "audio/m4a")) := by
  unfold audioFileFilter
  split
  case isTrue h =>
    simp only [Bool.and_eq_true, Bool.or_eq_true, decide_eq_true_eq] at h
    exact iff_of_true rfl (by tauto)
  case isFalse h =>
    simp only [Bool.and_eq_true, Bool.or_eq_true, decide_eq_true_eq] at h
    exact iff_of_false (by simp) (by tauto)

/-- C7. Any file whose buffered size exceeds the 10 MB cap is rejected by
the image upload configuration, and any file whose buffered size exceeds
the 25 MB cap is rejected by the audio upload configuration. -/
theorem upload_size_caps_reject (f : UploadedFile) :
    (imageFileSizeLimit < f.buffer.length →
      (processUpload imageFileFilter imageFileSizeLimit f).toOption = none) ∧
    (audioFileSizeLimit < f.buffer.length →
      (processUpload audioFileFilter audioFileSizeLimit f).toOption = none) := by
  constructor
  · intro h
    unfold processUpload
    cases himg : imageFileFilter f <;> simp [himg, h, Except.toOption]
  · intro h
    unfold processUpload
    cases haud : audioFileFilter f <;> simp [haud, h, Except.toOption]

/-- An image file one byte over the configured cap. -/
def oversizeImageFile : UploadedFile :=
  ⟨"images", "image/png", "big.png", List.replicate (imageFileSizeLimit + 1) 0⟩

/-- An audio file one byte over the configured cap. -/
def oversizeAudioFile : UploadedFile :=
  ⟨"file", "audio/mpeg", "big.mp3", List.replicate (audioFileSizeLimit + 1) 0⟩

/-- Witness for C7: the oversize image and audio files are both refused. -/
theorem upload_size_caps_reject_witness :
    (imageFileSizeLimit < oversizeImageFile.buffer.length ∧
      (processUpload imageFileFilter imageFileSizeLimit oversizeImageFile).toOption = none) ∧
    (audioFileSizeLimit < oversizeAudioFile.buffer.length ∧
      (processUpload audioFileFilter audioFileSizeLimit oversizeAudioFile).toOption = none) := by
  have h1 : imageFileSizeLimit < oversizeImageFile.buffer.length := by
    simp [oversizeImageFile]
  have h2 : audioFileSizeLimit < oversizeAudioFile.buffer.length := by
    simp [oversizeAudioFile]
  exact ⟨⟨h1, (upload_size_caps_reject oversizeImageFile).1 h1⟩,
         ⟨h2, (upload_size_caps_reject oversizeAudioFile).2 h2⟩⟩

/-- C10. When the text form field is absent or empty (falsy in JavaScript),
the text content part of the user message carries the fixed default prompt;
a non-empty text field is carried unchanged. -/
theorem notes_text_defaulting :
    (∀ t : Option String, (t = none ∨ t = some "") →
      notesTextPart t = .obj [("type", .str "text"), ("text", .str defaultNotesText)]) ∧
    (∀ s : String, s ≠ "" →
      notesTextPart (some s) = .obj [("type", .str "text"), ("text", .str s)]) := by
  constructor
  · rintro t (rfl | rfl) <;> simp [notesTextPart, jsOrDefault]
  · intro s hs
    simp [notesTextPart, jsOrDefault, hs]

/-- Witness for C10: an absent field yields the default prompt and a
non-empty field passes through. -/
theorem notes_text_defaulting_witness :
    notesTextPart none =
      .obj [("type", .str "text"), ("text", .str defaultNotesText)] ∧
    notesTextPart (some "my notes") =
      .obj [("type", .str "text"), ("text", .str "my notes")] :=
  ⟨notes_text_defaulting.1 none (Or.inl rfl),
   notes_text_defaulting.2 "my notes" (by decide)⟩

/-- Pushing one image part per file onto an accumulator is appending the
mapped image parts. -/
theorem foldl_push_image_parts (files : List UploadedFile) (acc : List Json) :
    files.foldl (fun a f => a ++ [notesImagePart f]) acc =
      acc ++ files.map notesImagePart := by
  induction files generalizing acc with
  | nil => simp
  | cons f fs ih => simp [List.foldl_cons, ih, List.append_assoc]

/-- C4. The user message of the note-analysis relay is the text part
followed by one image part per uploaded file in upload order: with zero
images it has exactly one content part, and with K images it has exactly
K + 1 content parts. -/
theorem notes_user_content_structure (t : Option String)
    (files : List UploadedFile) :
    notesUserContent t files = notesTextPart t :: files.map notesImagePart ∧
    (notesUserContent t []).length = 1 ∧
    (notesUserContent t files).length = files.length + 1 := by
  have hmain : ∀ fs : List UploadedFile,
      notesUserContent t fs = notesTextPart t :: fs.map notesImagePart := by
    intro fs
    unfold notesUserContent
    rw [foldl_push_image_parts]
    simp
  refine ⟨hmain files, ?_, ?_⟩
  · simp [hmain []]
  · simp [hmain files]

/-- C2. Whenever the awaited upstream call of a relay handler rejects, with
a network error or a non-2xx response of any payload shape, the handler
answers 500 with the fixed generic error body, for all three relay
routes. -/
theorem relay_handlers_upstream_failure_500 (key : String)
    (upstream : Upstream) (body : Json) (f : UploadedFile)
    (t : Option String) (files : List UploadedFile) (e1 e2 e3 : UpstreamErr)
    (h1 : upstream (chatOutboundRequest key body) = .error e1)
    (h2 : upstream (transcribeOutboundRequest key f) = .error e2)
    (h3 : upstream (processNotesOutboundRequest key t files) = .error e3) :
    chatHandler key body upstream = .responded ⟨500, .json genericErrorJson⟩ ∧
    transcribeHandler key (some f) upstream =
      .responded ⟨500, .json genericErrorJson⟩ ∧
    processNotesHandler key t files upstream =
      .responded ⟨500, .json genericErrorJson⟩ := by
  refine ⟨?_, ?_, ?_⟩
  · simp [chatHandler, chatTryBlock, h1, catchToGeneric]
  · simp [transcribeHandler, transcribeTryBlock, h2, catchToGeneric]
  · simp [processNotesHandler, processNotesTryBlock, h3, catchToGeneric]

/-- An upstream that always rejects with a network error. -/
def failingUpstream : Upstream := fun _ => .error (.network "ECONNREFUSED")

/-- Witness for C2: against an always-failing upstream, all three handlers
produce the 500 generic response on a concrete request. -/
theorem relay_handlers_upstream_failure_500_witness :
    chatHandler "k" Json.null failingUpstream =
      .responded ⟨500, .json genericErrorJson⟩ ∧
    transcribeHandler "k" (some ⟨"file", "audio/mpeg", "a.mp3", [1, 2]⟩)
        failingUpstream = .responded ⟨500, .json genericErrorJson⟩ ∧
    processNotesHandler "k" none [] failingUpstream =
      .responded ⟨500, .json genericErrorJson⟩ :=
  relay_handlers_upstream_failure_500 "k" failingUpstream Json.null
    ⟨"file", "audio/mpeg", "a.mp3", [1, 2]⟩ none []
    (.network "ECONNREFUSED") (.network "ECONNREFUSED")
    (.network "ECONNREFUSED") rfl rfl rfl

/-- C3. The chat relay forwards the inbound JSON body untouched to the
upstream chat endpoint, with a bearer credential header injected, and on
upstream success answers the client with the upstream JSON data
unchanged. -/
theorem chat_relay_forwards_verbatim (key : String) (body : Json)
    (upstream : Upstream) (d : Json)
    (h : upstream (chatOutboundRequest key body) = .ok d) :
    (chatOutboundRequest key body).body = .jsonBody body ∧
    (chatOutboundRequest key body).url =
      "https://api.uniapi.me/v1/chat/completions" ∧
    (chatOutboundRequest key body).headers =
      [("Authorization", "Bearer " ++ key),
       ("Content-Type", "application/json")] ∧
    chatHandler key body upstream = .responded ⟨200, .json d⟩ := by
  refine ⟨rfl, rfl, rfl, ?_⟩
  simp [chatHandler, chatTryBlock, h, catchToGeneric]

/-- An upstream that always resolves with a fixed JSON payload. -/
def okUpstream : Upstream := fun _ => .ok (.str "completion")

/-- Witness for C3: a concrete body is forwarded verbatim and the upstream
payload is returned verbatim. -/
theorem chat_relay_forwards_verbatim_witness :
    (chatOutboundRequest "k" (.obj [("model", .str "gpt-4o")])).body =
      .jsonBody (.obj [("model", .str "gpt-4o")]) ∧
    (chatOutboundRequest "k" (.obj [("model", .str "gpt-4o")])).url =
      "https://api.uniapi.me/v1/chat/completions" ∧
    (chatOutboundRequest "k" (.obj [("model", .str "gpt-4o")])).headers =
      [("Authorization", "Bearer " ++ "k"),
       ("Content-Type", "application/json")] ∧
    chatHandler "k" (.obj [("model", .str "gpt-4o")]) okUpstream =
      .responded ⟨200, .json (.str "completion")⟩ :=
  chat_relay_forwards_verbatim "k" (.obj [("model", .str "gpt-4o")])
    okUpstream (.str "completion") rfl

/-- C9 counterexample. A transcription request with no attached file does
not reach the framework default error path: dispatched through the full
route (rate limiter, upload middleware, handler), the TypeError thrown by
reading req.file.buffer is caught by the handler's own catch block, which
responds 500 with the generic error body. -/
theorem transcribe_missing_file_counterexample :
    (handleRequest "k" okUpstream emptyRateState 0
      ⟨"POST", "/api/openai/transcribe", "203.0.113.7", .null, none, [], none⟩).2
      = .responded ⟨500, .json genericErrorJson⟩ := by
  rfl

/-- C9 amended. A transcription request with the required file missing is
answered by the handler's own error mapping: the TypeError raised inside
the try body is caught and mapped to HTTP 500 with the generic error body,
not surfaced to the framework default error path. -/
theorem transcribe_missing_file_handled_by_catch (key : String)
    (upstream : Upstream) :
    transcribeHandler key none upstream =
      .responded ⟨500, .json genericErrorJson⟩ := by
  rfl

/-- C8. GET /health is answered 200 OK by the route itself, for every rate
limiter state, instant and upstream behavior: the route sits outside the
rate limiter and performs no dependency check, and the rate limiter state
is left untouched. -/
theorem health_always_ok (key : String) (upstream : Upstream)
    (st : RateState) (now : Nat) (req : Request)
    (hm : req.method = "GET") (hp : req.path = "/health") :
    handleRequest key upstream st now req = (st, .responded ⟨200, .text "OK"⟩) := by
  simp [handleRequest, hm, hp]

/-- Witness for C8: a concrete health request against the empty state. -/
theorem health_always_ok_witness :
    (⟨"GET", "/health", "203.0.113.7", .null, none, [], none⟩ : Request).method
      = "GET" ∧
    (⟨"GET", "/health", "203.0.113.7", .null, none, [], none⟩ : Request).path
      = "/health" ∧
    handleRequest "k" failingUpstream emptyRateState 0
      ⟨"GET", "/health", "203.0.113.7", .null, none, [], none⟩ =
      (emptyRateState, .responded ⟨200, .text "OK"⟩) :=
  ⟨rfl, rfl, health_always_ok "k" failingUpstream emptyRateState 0
    ⟨"GET", "/health", "203.0.113.7", .null, none, [], none⟩ rfl rfl⟩

/-- Within a live window, requests from one client see outcomes determined
only by the running count: starting from a record of c consumed points, the
request at offset i is passed on exactly when c + i + 1 stays within the
point budget. -/
theorem runMiddleware_in_window (ip : String) (ts : List Nat) :
    ∀ (c exp : Nat) (st : RateState), st ip = some (c, exp) →
      (∀ t ∈ ts, t < exp) → ∀ i < ts.length,
      (runMiddleware st ip ts).2[i]? =
        some (if c + i + 1 ≤ rateLimiterPoints then MiddlewareResult.next
              else .respond 429 "Too Many Requests") := by
  induction ts with
  | nil =>
      intro c exp st _ _ i hi
      simp at hi
  | cons t ts ih =>
      intro c exp st hst hmem i hi
      have ht : t < exp := hmem t (List.mem_cons_self t ts)
      have hstep : runMiddleware st ip (t :: ts) =
          ((runMiddleware (st.set ip (c + 1, exp)) ip ts).1,
            (if c + 1 ≤ rateLimiterPoints then MiddlewareResult.next
              else .respond 429 "Too Many Requests") ::
            (runMiddleware (st.set ip (c + 1, exp)) ip ts).2) := by
        simp [runMiddleware, rateLimiterMiddleware, RateState.consume, hst, ht]
      cases i with
      | zero =>
          simp [hstep]
      | succ j =>
          have hj : j < ts.length := by simpa using hi
          have hst' : (st.set ip (c + 1, exp)) ip = some (c + 1, exp) := by
            simp [RateState.set]
          have hmem' : ∀ t' ∈ ts, t' < exp :=
            fun t' ht' => hmem t' (List.mem_cons_of_mem t ht')
          have := ih (c + 1) exp (st.set ip (c + 1, exp)) hst' hmem' j hj
          rw [hstep]
          simpa [show c + 1 + j + 1 = c + (j + 1) + 1 from by omega] using this

/-- C1. For any client address, when a sequence of requests all falls into
the single fixed window opened by its first request, the rate limiter
middleware passes the 1st through 100th request on to the handler and
answers every further request itself with 429 Too Many Requests. -/
theorem rate_limiter_first_100_then_429 (ip : String) (t0 : Nat)
    (ts : List Nat) (hw : ∀ t ∈ ts, t < t0 + rateLimiterDuration)
    (i : Nat) (hi : i < (t0 :: ts).length) :
    (runMiddleware emptyRateState ip (t0 :: ts)).2[i]? =
      some (if i < rateLimiterPoints then MiddlewareResult.next
            else .respond 429 "Too Many Requests") := by
  have hstep : runMiddleware emptyRateState ip (t0 :: ts) =
      ((runMiddleware (emptyRateState.set ip (1, t0 + rateLimiterDuration)) ip ts).1,
        MiddlewareResult.next ::
        (runMiddleware (emptyRateState.set ip (1, t0 + rateLimiterDuration)) ip ts).2) := by
    simp [runMiddleware, rateLimiterMiddleware, RateState.consume, emptyRateState,
      rateLimiterPoints]
  cases i with
  | zero =>
      simp [hstep, rateLimiterPoints]
  | succ j =>
      have hj : j < ts.length := by simpa using hi
      have hst' : (emptyRateState.set ip (1, t0 + rateLimiterDuration)) ip =
          some (1, t0 + rateLimiterDuration) := by
        simp [RateState.set]
      have := runMiddleware_in_window ip ts 1 (t0 + rateLimiterDuration)
        (emptyRateState.set ip (1, t0 + rateLimiterDuration)) hst' hw j hj
      rw [hstep]
      have hcond : (1 + j + 1 ≤ rateLimiterPoints) = (j + 1 < rateLimiterPoints) := by
        simp only [rateLimiterPoints]
        exact propext ⟨fun h => by omega, fun h => by omega⟩
      simpa [hcond] using this

/-- Witness for C1: one hundred and one requests at one instant from one
address; the request at index 100, the 101st, is refused with 429. -/
theorem rate_limiter_first_100_then_429_witness :
    (∀ t ∈ List.replicate 100 0, t < 0 + rateLimiterDuration) ∧
    100 < ((0 : Nat) :: List.replicate 100 0).length ∧
    (runMiddleware emptyRateState "203.0.113.8"
        ((0 : Nat) :: List.replicate 100 0)).2[100]? =
      some (.respond 429 "Too Many Requests") := by
  have h1 : ∀ t ∈ List.replicate 100 0, t < 0 + rateLimiterDuration := by
    intro t htm
    have := List.eq_of_mem_replicate htm
    simp [this, rateLimiterDuration]
  have h2 : 100 < ((0 : Nat) :: List.replicate 100 0).length := by simp
  refine ⟨h1, h2, ?_⟩
  have := rate_limiter_first_100_then_429 "203.0.113.8" 0
    (List.replicate 100 0) h1 100 h2
  simpa [rateLimiterPoints] using this
